import Mathlib

/-!
Shallow embedding of the rpa-challenge Al Jazeera news crawler
(src/libraries/AlJazeeraCrawler.py and src/libraries/CustomSelenium.py).

Browser interaction is modelled by passing the DOM content of each news
item explicitly; Python exceptions are modelled with Except; side effects
of the loop (image downloads, clicks on the load-more control, the fixed
sleep) are collected in an explicit effect trace.  Python built-in string
functions used by the source (str.lower, str.count, re.findall on the
money pattern, datetime.strptime with format d b Y) are implemented on
the character lists backing Lean strings; they agree with CPython on the
ASCII inputs this crawler handles.
-/

namespace AlJazeera

/-- Calendar date, mirroring the (year, month, day) triple of a Python
datetime.date.  Comparison of Python dates is lexicographic. -/
structure Date where
  year : Int
  month : Int
  day : Int
deriving Repr, DecidableEq

/-- Lexicographic strict order on dates, as used by Python in
new_row["date"].date() < min_date.date() (AlJazeeraCrawler.py line 228). -/
def dateLt (a b : Date) : Bool :=
  decide (a.year < b.year) ||
    (decide (a.year = b.year) &&
      (decide (a.month < b.month) ||
        (decide (a.month = b.month) && decide (a.day < b.day))))

/-- Month counter of a date: months elapsed since month 1 of year 0.
Used to state the cutoff arithmetic of the lookback window. -/
def monthIndex (d : Date) : Int :=
  d.year * 12 + (d.month - 1)

/-- Gregorian leap-year test, as in Python calendar arithmetic. -/
def isLeapYear (y : Int) : Bool :=
  (decide (y % 4 = 0) && decide (y % 100 ≠ 0)) || decide (y % 400 = 0)

/-- Days in a month of the Gregorian calendar. -/
def daysInMonth (y m : Int) : Int :=
  if m = 2 then (if isLeapYear y then 29 else 28)
  else if m = 4 ∨ m = 6 ∨ m = 9 ∨ m = 11 then 30
  else 31

/-- Subtracting k months from a date, the way pandas DateOffset(months=k)
does on subtraction: shift the month counter back by k and clamp the day
to the length of the resulting month (AlJazeeraCrawler.py line 212). -/
def subMonths (d : Date) (k : Int) : Date :=
  let idx := d.year * 12 + (d.month - 1) - k
  let y := idx / 12
  let m := idx % 12 + 1
  { year := y, month := m, day := min d.day (daysInMonth y m) }

/-- Cutoff date of _save_news_to_excel (AlJazeeraCrawler.py lines 210-213):
start from today, subtract DateOffset(months=number_of_months-1) when
number_of_months > 0, then replace the day by 1. -/
def computeMinDate (today : Date) (number_of_months : Int) : Date :=
  let m := if 0 < number_of_months then subMonths today (number_of_months - 1) else today
  { m with day := 1 }

/-! ## Python string primitives -/

/-- Python str.lower, restricted to the ASCII case mapping that the
crawler's inputs use. -/
def pyLower (s : String) : String :=
  { data := s.data.map Char.toLower }

/-- Helper for Python str.count: scan the text left to right; a pending
skip counter jumps over the characters consumed by the previous match, so
occurrences are counted without overlap, exactly as str.count does. -/
def countAux (p : List Char) : List Char → Nat → Nat
  | [], _ => 0
  | c :: rest, skip =>
    if 0 < skip then countAux p rest (skip - 1)
    else if p.isPrefixOf (c :: rest) then 1 + countAux p rest (p.length - 1)
    else countAux p rest 0

/-- Python str.count: number of non-overlapping occurrences of p in s,
found left to right.  An empty pattern occurs len(s)+1 times. -/
def pyCountStr (s p : String) : Nat :=
  match p.data with
  | [] => s.data.length + 1
  | _ :: _ => countAux p.data s.data 0

/-- Number of occurrences of p in s when overlapping occurrences are
counted as well: one per starting position carrying p. -/
def overlapCount (s p : List Char) : Nat :=
  ((List.range (s.length + 1)).filter (fun i => p.isPrefixOf (s.drop i))).length

/-- Matching of the regex fragment d+ followed by the literal suffix:
some nonempty run of digits starting here, then the suffix. -/
def digitsThen (suffix : List Char) : List Char → Bool
  | [] => false
  | c :: rest => c.isDigit && (suffix.isPrefixOf rest || digitsThen suffix rest)

/-- Whether one alternative of the money pattern of AlJazeeraCrawler.py
line 185 matches at the start of the text.  The first alternative needs a
dollar sign followed by at least one digit or comma (the optional decimal
group cannot make it fail); the others need digits then a literal word. -/
def moneyMatchAt (s : List Char) : Bool :=
  match s with
  | '$' :: c :: _ => c.isDigit || c == ','
  | _ => digitsThen (" dollars".data) s || digitsThen (" USD".data) s

/-- Whether a predicate matches at some position of the text. -/
def searchAnywhere (p : List Char → Bool) : List Char → Bool
  | [] => p []
  | c :: rest => p (c :: rest) || searchAnywhere p rest

/-- Truthiness of re.findall on the compiled money pattern of
AlJazeeraCrawler.py line 185: some position of the text starts a match. -/
def moneySearch (s : String) : Bool :=
  searchAnywhere moneyMatchAt s.data

/-! ## datetime.strptime with format "%d %b %Y" -/

/-- Lowercased month abbreviations accepted by the b directive. -/
def monthAbbrs : List String :=
  ["jan", "feb", "mar", "apr", "may", "jun", "jul", "aug", "sep", "oct", "nov", "dec"]

/-- Month number of an abbreviation; strptime matches month names
case-insensitively. -/
def parseMonthAbbr (s : String) : Option Int :=
  match monthAbbrs.findIdx? (fun a => a = pyLower s) with
  | some i => some ((i : Int) + 1)
  | none => none

/-- Value of a nonempty all-digit token. -/
def parseDigits (cs : List Char) : Option Nat :=
  if cs.isEmpty then none
  else if cs.all (fun c => c.isDigit) then
    some (cs.foldl (fun a c => a * 10 + (c.toNat - 48)) 0)
  else none

/-- Split on runs of whitespace, dropping empty tokens, the way a
whitespace directive of strptime consumes the gap between fields. -/
def splitWsAux : List Char → List Char → List String
  | [], acc => if acc.isEmpty then [] else [{ data := acc.reverse }]
  | c :: rest, acc =>
    if c.isWhitespace then
      if acc.isEmpty then splitWsAux rest [] else { data := acc.reverse } :: splitWsAux rest []
    else splitWsAux rest (c :: acc)

/-- datetime.strptime(s, d b Y) as used on AlJazeeraCrawler.py line 164:
a 1-2 digit day, a month abbreviation, a year of up to four digits, and
the resulting day must exist in that month (otherwise strptime raises,
which the caller of this function maps to a ValueError). -/
def strptimeDate (s : String) : Option Date :=
  match splitWsAux s.data [] with
  | [ds, ms, ys] =>
    match parseDigits ds.data, parseMonthAbbr ms, parseDigits ys.data with
    | some day, some m, some y =>
      if ds.data.length ≤ 2 ∧ ys.data.length ≤ 4 ∧ 1 ≤ y ∧
          1 ≤ day ∧ (day : Int) ≤ daysInMonth (y : Int) m then
        some { year := (y : Int), month := m, day := (day : Int) }
      else none
    | _, _, _ => none
  | _ => none

/-- Python str.strip: drop leading and trailing whitespace. -/
def stripSpaces (s : String) : String :=
  { data := ((s.data.dropWhile Char.isWhitespace).reverse.dropWhile Char.isWhitespace).reverse }

/-- Python str.removeprefix on a given literal. -/
def dropPrefixStr (p s : String) : String :=
  if p.data.isPrefixOf s.data then { data := s.data.drop p.data.length } else s

/-! ## Crawler data model -/

/-- Python exception kinds the crawler logic can raise: ValueError from
strptime on an unparseable date text, TypeError from re.findall applied
to None. -/
inductive PyError where
  | valueError
  | typeError
deriving Repr, DecidableEq

/-- Observable side effects of the scraping loop: retrieving a picture
url into a file, scrolling an element into view, clicking the load-more
control, and the fixed sleep after it. -/
inductive Effect where
  | download (src : String) (filename : String)
  | scroll
  | click
  | sleepSecs (n : Nat)
deriving Repr, DecidableEq

/-- DOM content of one article node, as _scrape_news_item reads it:
text of the title link when that element is found, text of the date
element when found, text of the excerpt paragraph when found, and for the
img element: none when absent, some src when present (src itself
optional, mirroring get_attribute returning None). -/
structure NewsItem where
  titleText : Option String
  dateText : Option String
  descriptionText : Option String
  picture : Option (Option String)
deriving Repr, DecidableEq

/-- Row produced per article, with the columns written to the
spreadsheet (AlJazeeraCrawler.py lines 190-197). -/
structure NewsRecord where
  title : String
  date : Option Date
  description : Option String
  picture_filename : Option String
  search_phrase_count : Nat
  has_money : Bool
deriving Repr, DecidableEq

/-! ## Per-field computations of _scrape_news_item -/

/-- Date field (AlJazeeraCrawler.py lines 160-167): a missing date
element yields None; a present one is parsed with strptime after
removing the "Last update " prefix and stripping whitespace, and an
unparseable text raises ValueError. -/
def parseDateField : Option String → Except PyError (Option Date)
  | none => Except.ok none
  | some s =>
    match strptimeDate (stripSpaces (dropPrefixStr ("Last update ") s)) with
    | some d => Except.ok (some d)
    | none => Except.error PyError.valueError

/-- Picture field (AlJazeeraCrawler.py lines 172-179): when an img
element exists, the filename hash-of-title.png is computed, and the
image is retrieved only when the src attribute is truthy; the record
keeps the filename whenever the element exists.  Returns the
picture_filename value and the download effects performed. -/
def pictureField (hashFn : String → Int) (title : String) :
    Option (Option String) → Option String × List Effect
  | none => (none, [])
  | some srcOpt =>
    let th : Int := if title = "" then 0 else hashFn title
    let fn : String := toString th ++ ".png"
    match srcOpt with
    | some src => if src = "" then (some fn, []) else (some fn, [Effect.download src fn])
    | none => (some fn, [])

/-- Keyword count (AlJazeeraCrawler.py lines 181-182): lowercased
str.count of the search term in the title when the title is truthy plus
the same over the description when it is truthy. -/
def searchCount (title : String) (description : Option String) (term : String) : Nat :=
  (if title = "" then 0 else pyCountStr (pyLower title) (pyLower term)) +
    (match description with
     | some d => if d = "" then 0 else pyCountStr (pyLower d) (pyLower term)
     | none => 0)

/-- Money flag (AlJazeeraCrawler.py lines 184-188): findall on the title
first; when that is empty, findall on the description, which raises
TypeError when the description is None. -/
def moneyField (title : String) (description : Option String) : Except PyError Bool :=
  if moneySearch title then Except.ok true
  else
    match description with
    | none => Except.error PyError.typeError
    | some d => Except.ok (moneySearch d)

/-- _scrape_news_item (AlJazeeraCrawler.py lines 137-197): a falsy title
(missing element or empty text) yields no record; otherwise the date,
description, picture, keyword count and money fields are computed in the
order of the source, errors propagating as exceptions.  Returns the
record plus the download effects. -/
def scrape_news_item (hashFn : String → Int) (item : NewsItem) (search_term : String) :
    Except PyError (Option (NewsRecord × List Effect)) :=
  match item.titleText with
  | none => Except.ok none
  | some title =>
    if title = "" then Except.ok none
    else
      match parseDateField item.dateText with
      | Except.error e => Except.error e
      | Except.ok date =>
        match moneyField title item.descriptionText with
        | Except.error e => Except.error e
        | Except.ok hm =>
          Except.ok (some
            ({ title := title, date := date, description := item.descriptionText,
               picture_filename := (pictureField hashFn title item.picture).1,
               search_phrase_count := searchCount title item.descriptionText search_term,
               has_money := hm }, (pictureField hashFn title item.picture).2))

/-- Loop condition of AlJazeeraCrawler.py line 228: the record has a
non-null date and that date is strictly before the cutoff. -/
def stopsAt (d : Option Date) (minD : Date) : Bool :=
  match d with
  | some dd => dateLt dd minD
  | none => false

/-- Inner pass of the while loop of _save_news_to_excel over the
currently visible items (AlJazeeraCrawler.py lines 222-234): each item is
scrolled into view and scraped; a record dated before the cutoff breaks
out (and is not appended), a None result is skipped, anything else is
appended; curr_item counts every processed item.  Returns the
accumulated rows, the item counter, whether the break fired, and the
effect trace. -/
def scanItems (hashFn : String → Int) (term : String) (minD : Date) :
    List NewsItem → Nat → List NewsRecord →
    Except PyError (List NewsRecord × Nat × Bool × List Effect)
  | [], curr, df => Except.ok (df, curr, false, [])
  | item :: rest, curr, df =>
    match scrape_news_item hashFn item term with
    | Except.error e => Except.error e
    | Except.ok none =>
      match scanItems hashFn term minD rest (curr + 1) df with
      | Except.error e => Except.error e
      | Except.ok (df', c', s', eff') => Except.ok (df', c', s', Effect.scroll :: eff')
    | Except.ok (some (r, eff)) =>
      if stopsAt r.date minD then Except.ok (df, curr, true, Effect.scroll :: eff)
      else
        match scanItems hashFn term minD rest (curr + 1) (df ++ [r]) with
        | Except.error e => Except.error e
        | Except.ok (df', c', s', eff') =>
          Except.ok (df', c', s', Effect.scroll :: (eff ++ eff'))

/-- The while loop of _save_news_to_excel (AlJazeeraCrawler.py lines
222-247) including pagination.  reloads holds the full article list the
driver returns after each click on the load-more control; an empty
reloads list means the control is absent when the visible items run out.
After a reload, only the items beyond the counter of already processed
items are scanned. -/
def crawlLoop (hashFn : String → Int) (term : String) (minD : Date) :
    List NewsItem → Nat → List NewsRecord → List (List NewsItem) →
    Except PyError (List NewsRecord × List Effect)
  | [], _, df, _ => Except.ok (df, [])
  | item :: items, curr, df, reloads =>
    match scanItems hashFn term minD (item :: items) curr df with
    | Except.error e => Except.error e
    | Except.ok (df', c', stopped, eff) =>
      if stopped then Except.ok (df', eff)
      else
        match reloads with
        | [] => Except.ok (df', eff)
        | refetched :: rest =>
          match crawlLoop hashFn term minD (refetched.drop c') c' df' rest with
          | Except.error e => Except.error e
          | Except.ok (dfF, effF) =>
            Except.ok (dfF,
              eff ++ (Effect.scroll :: Effect.click :: Effect.sleepSecs 5 :: effF))

/-- _save_news_to_excel (AlJazeeraCrawler.py lines 199-250): compute the
cutoff from today and the lookback window, then run the scraping loop
from the initial article list; the returned rows are the content of the
exported spreadsheet. -/
def save_news_to_excel (hashFn : String → Int) (search_term : String)
    (number_of_months : Int) (today : Date) (initialItems : List NewsItem)
    (reloads : List (List NewsItem)) :
    Except PyError (List NewsRecord × List Effect) :=
  let min_date := computeMinDate today number_of_months
  crawlLoop hashFn search_term min_date initialItems 0 [] reloads

/-! ## CustomSelenium.set_webdriver -/

/-- Browser option set built by _set_chrome_options or
_set_firefox_options (CustomSelenium.py lines 133-177). -/
structure BrowserOptions where
  args : List String
  excludeSwitches : List String
  useAutomationExtensionOff : Bool
deriving Repr, DecidableEq

/-- Fixed custom user-agent string (CustomSelenium.py lines 37-39). -/
def user_agent : String :=
  "Mozilla/5.0 (X11; Linux x86_64) AppleWebKit/537.36 (KHTML, like Gecko) Chrome/60.0.3112.50 Safari/537.36"

/-- _set_chrome_options (CustomSelenium.py lines 133-156). -/
def set_chrome_options : BrowserOptions :=
  { args :=
      ["--headless", "--no-sandbox", "--disable-extensions", "--disable-web-security",
       "--start-maximized", "--disable-gpu", "--disable-dev-shm-usage",
       "--ignore-certificate-errors", "--allow-running-insecure-content",
       "--user-agent=" ++ user_agent],
    excludeSwitches := ["enable-automation", "enable-logging"],
    useAutomationExtensionOff := true }

/-- _set_firefox_options (CustomSelenium.py lines 158-177). -/
def set_firefox_options : BrowserOptions :=
  { args :=
      ["--headless", "--no-sandbox", "--disable-extensions", "--disable-web-security",
       "--start-maximized", "--disable-gpu", "--ignore-certificate-errors",
       "--allow-running-insecure-content", "--user-agent=" ++ user_agent],
    excludeSwitches := [],
    useAutomationExtensionOff := false }

/-- Started driver state: the browser string handed to start(), the
options it was configured with, and the implicit wait installed right
after (CustomSelenium.py lines 75-76). -/
structure Driver where
  browser : String
  options : BrowserOptions
  implicit_wait : Nat
deriving Repr, DecidableEq

/-- set_webdriver (CustomSelenium.py lines 54-77): a case-insensitive
dispatch on the browser name; chrome and firefox start a driver with the
matching options, anything else raises ValueError with the message of
line 73 (modelled as the error string). -/
def set_webdriver (browser : String) : Except String Driver :=
  if pyLower browser = "chrome" then
    Except.ok { browser := browser, options := set_chrome_options, implicit_wait := 20 }
  else if pyLower browser = "firefox" then
    Except.ok { browser := browser, options := set_firefox_options, implicit_wait := 20 }
  else
    Except.error ("Browser " ++ browser ++ " is not supported")

/-! ## Helper lemmas -/

/-- The Boolean date order agrees with the lexicographic order on the
(year, month, day) triple. -/
theorem dateLt_iff (a b : Date) :
    dateLt a b = true ↔
      (a.year < b.year ∨ (a.year = b.year ∧
        (a.month < b.month ∨ (a.month = b.month ∧ a.day < b.day)))) := by
  simp [dateLt]

/-- For dates with months in range, the lexicographic order is the order
on month counters refined by the day. -/
theorem dateLt_monthIndex_iff (a b : Date)
    (ha : 1 ≤ a.month ∧ a.month ≤ 12) (hb : 1 ≤ b.month ∧ b.month ≤ 12) :
    dateLt a b = true ↔
      (monthIndex a < monthIndex b ∨ (monthIndex a = monthIndex b ∧ a.day < b.day)) := by
  rw [dateLt_iff]
  unfold monthIndex
  constructor <;> intro h <;> omega

/-- Inversion of _scrape_news_item: a produced record determines the DOM
facts it came from and pins every field to its defining computation. -/
theorem scrape_inv (hashFn : String → Int) (item : NewsItem) (term : String)
    (r : NewsRecord) (eff : List Effect)
    (h : scrape_news_item hashFn item term = Except.ok (some (r, eff))) :
    ∃ t dopt hm, item.titleText = some t ∧ ¬ t = "" ∧
      parseDateField item.dateText = Except.ok dopt ∧
      moneyField t item.descriptionText = Except.ok hm ∧
      r = { title := t, date := dopt, description := item.descriptionText,
            picture_filename := (pictureField hashFn t item.picture).1,
            search_phrase_count := searchCount t item.descriptionText term,
            has_money := hm } ∧
      eff = (pictureField hashFn t item.picture).2 := by
  unfold scrape_news_item at h
  split at h
  · exact absurd h (by simp)
  next t ht =>
    split at h
    · exact absurd h (by simp)
    next h0 =>
      split at h
      · exact absurd h (by simp)
      next dopt hd =>
        split at h
        · exact absurd h (by simp)
        next b hm =>
          simp only [Except.ok.injEq, Option.some.injEq, Prod.mk.injEq] at h
          exact ⟨t, dopt, b, ht, h0, hd, hm, h.1.symm, h.2.symm⟩

/-- When no break fires, the inner pass advances the item counter by
exactly the number of visible items. -/
theorem scanItems_counter (hashFn : String → Int) (term : String) (minD : Date) :
    ∀ (items : List NewsItem) (curr : Nat) (df df' : List NewsRecord)
      (c' : Nat) (eff : List Effect),
      scanItems hashFn term minD items curr df = Except.ok (df', c', false, eff) →
      c' = curr + items.length := by
  intro items
  induction items with
  | nil =>
    intro curr df df' c' eff h
    simp only [scanItems, Except.ok.injEq, Prod.mk.injEq] at h
    obtain ⟨-, h2, -⟩ := h
    simp [← h2]
  | cons item rest ih =>
    intro curr df df' c' eff h
    unfold scanItems at h
    split at h
    · exact absurd h (by simp)
    · split at h
      · exact absurd h (by simp)
      next a b c d hrec =>
        simp only [Except.ok.injEq, Prod.mk.injEq] at h
        obtain ⟨-, h2, h3, -⟩ := h
        subst h2; subst h3
        have := ih (curr + 1) df a b d hrec
        simp only [List.length_cons]
        omega
    next r eff0 hs =>
      split at h
      · simp only [Except.ok.injEq, Prod.mk.injEq] at h
        exact absurd h.2.2.1.symm (by simp)
      · split at h
        · exact absurd h (by simp)
        next a b c d hrec =>
          simp only [Except.ok.injEq, Prod.mk.injEq] at h
          obtain ⟨-, h2, h3, -⟩ := h
          subst h2; subst h3
          have := ih (curr + 1) _ a b d hrec
          simp only [List.length_cons]
          omega

/-- A lowercased string is empty exactly when the original is. -/
theorem pyLower_data_ne_nil (s : String) (hs : ¬ s = "") : (pyLower s).data ≠ [] := by
  intro hcon
  apply hs
  cases s with
  | mk l =>
    simp only [pyLower, List.map_eq_nil_iff] at hcon
    subst hcon
    rfl

/-- Python str.count finds nothing in the empty string when the pattern
is nonempty. -/
theorem pyCountStr_empty_text (p : String) (hp : p.data ≠ []) :
    pyCountStr { data := [] } p = 0 := by
  unfold pyCountStr
  cases hpd : p.data with
  | nil => exact absurd hpd hp
  | cons c cs => simp [countAux]

/-! ## Claim theorems -/

/-- Claim C2: a record with a non-null date before the cutoff stops the
scan immediately, excluding that record, for any remaining items and any
pending reloads; a record with a null date is appended and the scan
continues. -/
theorem cutoff_termination_policy (hashFn : String → Int) (term : String) (minD : Date)
    (item : NewsItem) (r : NewsRecord) (eff : List Effect)
    (h : scrape_news_item hashFn item term = Except.ok (some (r, eff))) :
    (∀ d : Date, r.date = some d → dateLt d minD = true →
      ∀ (rest : List NewsItem) (curr : Nat) (df : List NewsRecord),
        scanItems hashFn term minD (item :: rest) curr df
          = Except.ok (df, curr, true, Effect.scroll :: eff)
        ∧ ∀ reloads, crawlLoop hashFn term minD (item :: rest) curr df reloads
            = Except.ok (df, Effect.scroll :: eff))
  ∧ (r.date = none →
      ∀ (rest : List NewsItem) (curr : Nat) (df : List NewsRecord),
        scanItems hashFn term minD (item :: rest) curr df
          = Except.map (fun q => (q.1, q.2.1, q.2.2.1, Effect.scroll :: (eff ++ q.2.2.2)))
              (scanItems hashFn term minD rest (curr + 1) (df ++ [r]))) := by
  constructor
  · intro d hd hlt rest curr df
    have hstop : stopsAt r.date minD = true := by simp [stopsAt, hd, hlt]
    have hscan : scanItems hashFn term minD (item :: rest) curr df
        = Except.ok (df, curr, true, Effect.scroll :: eff) := by
      simp [scanItems, h, hstop]
    exact ⟨hscan, fun reloads => by simp [crawlLoop, hscan]⟩
  · intro hd rest curr df
    have hstop : stopsAt r.date minD = false := by simp [stopsAt, hd]
    cases hrec : scanItems hashFn term minD rest (curr + 1) (df ++ [r]) with
    | error e => simp [scanItems, h, hstop, hrec, Except.map]
    | ok q => simp [scanItems, h, hstop, hrec, Except.map]

/-- Claim C6: when the visible items are exhausted without the cutoff
firing, the counter equals the number of items processed; with no
load-more control the loop ends with the accumulated rows, and with one
the loop clicks it, sleeps five seconds, and continues with only the
refetched items beyond the counter. -/
theorem pagination_load_more (hashFn : String → Int) (term : String) (minD : Date)
    (item : NewsItem) (tl : List NewsItem) (curr : Nat) (df df' : List NewsRecord)
    (c' : Nat) (eff : List Effect)
    (h : scanItems hashFn term minD (item :: tl) curr df = Except.ok (df', c', false, eff)) :
    c' = curr + (item :: tl).length
  ∧ crawlLoop hashFn term minD (item :: tl) curr df [] = Except.ok (df', eff)
  ∧ ∀ (refetched : List NewsItem) (rest : List (List NewsItem)),
      crawlLoop hashFn term minD (item :: tl) curr df (refetched :: rest)
        = Except.map
            (fun q => (q.1, eff ++ (Effect.scroll :: Effect.click :: Effect.sleepSecs 5 :: q.2)))
            (crawlLoop hashFn term minD (refetched.drop c') c' df' rest) := by
  refine ⟨scanItems_counter hashFn term minD (item :: tl) curr df df' c' eff h, ?_, ?_⟩
  · simp [crawlLoop, h]
  · intro refetched rest
    cases hrec : crawlLoop hashFn term minD (refetched.drop c') c' df' rest with
    | error e => simp [crawlLoop, h, hrec, Except.map]
    | ok q => simp [crawlLoop, h, hrec, Except.map]

/-- Claim C7: an item whose title link is not found produces no record
at all, and the scan continues with the next item, counter advanced. -/
theorem missing_title_skips_item (hashFn : String → Int) (term : String) (minD : Date)
    (item : NewsItem) (h : item.titleText = none) :
    scrape_news_item hashFn item term = Except.ok none
  ∧ ∀ (rest : List NewsItem) (curr : Nat) (df : List NewsRecord),
      scanItems hashFn term minD (item :: rest) curr df
        = Except.map (fun q => (q.1, q.2.1, q.2.2.1, Effect.scroll :: q.2.2.2))
            (scanItems hashFn term minD rest (curr + 1) df) := by
  have hs : scrape_news_item hashFn item term = Except.ok none := by
    unfold scrape_news_item
    rw [h]
  refine ⟨hs, ?_⟩
  intro rest curr df
  cases hrec : scanItems hashFn term minD rest (curr + 1) df with
  | error e => simp [scanItems, hs, hrec, Except.map]
  | ok q => simp [scanItems, hs, hrec, Except.map]

/-- Claim C9: set_webdriver succeeds exactly for the browser names that
lowercase to chrome or firefox, starting a driver configured with the
matching option set, and raises for every other name. -/
theorem set_webdriver_supported_browsers (browser : String) :
    ((∃ dr, set_webdriver browser = Except.ok dr) ↔
      (pyLower browser = "chrome" ∨ pyLower browser = "firefox"))
  ∧ (pyLower browser = "chrome" →
      set_webdriver browser
        = Except.ok { browser := browser, options := set_chrome_options, implicit_wait := 20 })
  ∧ (pyLower browser = "firefox" →
      set_webdriver browser
        = Except.ok { browser := browser, options := set_firefox_options, implicit_wait := 20 })
  ∧ (¬ pyLower browser = "chrome" → ¬ pyLower browser = "firefox" →
      set_webdriver browser = Except.error ("Browser " ++ browser ++ " is not supported")) := by
  by_cases hc : pyLower browser = "chrome"
  · simp [set_webdriver, hc]
  · by_cases hf : pyLower browser = "firefox"
    · simp [set_webdriver, hc, hf]
    · simp [set_webdriver, hc, hf]

/-- Claim C8: the extraction step is a function of the DOM snapshot:
equal snapshots (initial items and reload contents) yield equal ordered
record sequences, picture filenames included, for a fixed in-process
hash function. -/
theorem extraction_deterministic (hashFn : String → Int) (term : String) (N : Int)
    (today : Date) (items1 items2 : List NewsItem)
    (reloads1 reloads2 : List (List NewsItem))
    (h1 : items1 = items2) (h2 : reloads1 = reloads2) :
    save_news_to_excel hashFn term N today items1 reloads1
      = save_news_to_excel hashFn term N today items2 reloads2
  ∧ Except.map (fun q => q.1.map (fun r => r.picture_filename))
        (save_news_to_excel hashFn term N today items1 reloads1)
      = Except.map (fun q => q.1.map (fun r => r.picture_filename))
        (save_news_to_excel hashFn term N today items2 reloads2) := by
  subst h1
  subst h2
  exact ⟨rfl, rfl⟩

/-- Claim C3 failing input: a title without a currency mention together
with a missing description element makes the money check evaluate
re.findall on None, raising TypeError and aborting the run instead of
degrading the description field to null. -/
theorem missing_description_typeerror :
    scrape_news_item (fun _ => 0)
        { titleText := some ("Board meeting"), dateText := some ("12 Oct 2026"),
          descriptionText := none, picture := some (some ("images/board.png")) }
        ("Olympics")
      = Except.error PyError.typeError := rfl

/-- Claim C10: when the img element exists but carries no src attribute,
no download happens, yet the record still names hash-of-title.png as its
picture file. -/
theorem picture_filename_without_src (hashFn : String → Int) (item : NewsItem)
    (term : String) (r : NewsRecord) (eff : List Effect)
    (h : scrape_news_item hashFn item term = Except.ok (some (r, eff)))
    (hp : item.picture = some none) :
    eff = [] ∧ r.picture_filename = some (toString (hashFn r.title) ++ ".png") := by
  obtain ⟨t, dopt, hm, ht, h0, hd, hmf, hr, he⟩ := scrape_inv hashFn item term r eff h
  subst hr
  subst he
  simp [pictureField, hp, h0]

/-- Claim C1: the cutoff is the first of the month N-1 months back for
N > 0 and the first of the current month for N = 0; hence with N = 1 an
article dated the first of the current month is not before the cutoff,
while a prior-month article is before the cutoff for N = 1 and not
before it for any N ≥ 2. -/
theorem cutoff_month_arithmetic (today : Date) (N : Int)
    (hm : 1 ≤ today.month ∧ today.month ≤ 12) :
    (0 < N → monthIndex (computeMinDate today N) = monthIndex today - (N - 1)
      ∧ (computeMinDate today N).day = 1)
  ∧ computeMinDate today 0 = { year := today.year, month := today.month, day := 1 }
  ∧ dateLt { year := today.year, month := today.month, day := 1 }
      (computeMinDate today 1) = false
  ∧ (∀ d : Date, 1 ≤ d.month → d.month ≤ 12 → 1 ≤ d.day →
      monthIndex d = monthIndex today - 1 →
      dateLt d (computeMinDate today 1) = true
      ∧ ∀ N2 : Int, 2 ≤ N2 → dateLt d (computeMinDate today N2) = false) := by
  have key : ∀ M : Int, 0 < M →
      monthIndex (computeMinDate today M) = monthIndex today - (M - 1)
      ∧ 1 ≤ (computeMinDate today M).month ∧ (computeMinDate today M).month ≤ 12
      ∧ (computeMinDate today M).day = 1 := by
    intro M hM
    simp only [computeMinDate, subMonths, monthIndex, if_pos hM]
    refine ⟨?_, ?_, ?_, ?_⟩ <;> first | trivial | omega
  refine ⟨fun hN => ⟨(key N hN).1, (key N hN).2.2.2⟩, ?_, ?_, ?_⟩
  · simp [computeMinDate]
  · rw [Bool.eq_false_iff, Ne,
      dateLt_monthIndex_iff { year := today.year, month := today.month, day := 1 }
        (computeMinDate today 1) ⟨hm.1, hm.2⟩ ⟨(key 1 one_pos).2.1, (key 1 one_pos).2.2.1⟩]
    have h1 := (key 1 one_pos).1
    have h2 := (key 1 one_pos).2.2.2
    simp only [monthIndex] at h1 ⊢
    omega
  · intro d hd1 hd2 hd3 hidx
    constructor
    · rw [dateLt_monthIndex_iff _ _ ⟨hd1, hd2⟩ ⟨(key 1 one_pos).2.1, (key 1 one_pos).2.2.1⟩]
      have h1 := (key 1 one_pos).1
      omega
    · intro N2 hN2
      have hk := key N2 (by omega)
      rw [Bool.eq_false_iff, Ne, dateLt_monthIndex_iff _ _ ⟨hd1, hd2⟩ ⟨hk.2.1, hk.2.2.1⟩]
      have h1 := hk.1
      have h2 := hk.2.2.2
      omega

/-- Claim C5: for every produced record, the money flag holds exactly
when the title or the (present) description contains a match of the
money pattern, and the pattern behaves as on the three spec examples. -/
theorem has_money_iff_money_regex (hashFn : String → Int) (item : NewsItem) (term : String)
    (r : NewsRecord) (eff : List Effect)
    (h : scrape_news_item hashFn item term = Except.ok (some (r, eff))) :
    (r.has_money = true ↔
      (moneySearch r.title = true ∨ ∃ d, r.description = some d ∧ moneySearch d = true))
  ∧ moneySearch ("$1,200") = true ∧ moneySearch ("50 dollars") = true
  ∧ moneySearch ("no money here") = false := by
  refine ⟨?_, rfl, rfl, rfl⟩
  obtain ⟨t, dopt, hm, ht, h0, hd, hmf, hr, he⟩ := scrape_inv hashFn item term r eff h
  subst hr
  unfold moneyField at hmf
  by_cases hmt : moneySearch t = true
  · rw [if_pos hmt] at hmf
    simp only [Except.ok.injEq] at hmf
    subst hmf
    simp [hmt]
  · rw [if_neg hmt] at hmf
    cases hdsc : item.descriptionText with
    | none => rw [hdsc] at hmf; exact absurd hmf (by simp)
    | some d =>
      rw [hdsc] at hmf
      simp only [Except.ok.injEq] at hmf
      subst hmf
      simp [hmt, hdsc]

/-- Claim C4 counterexample: with title aaa and search term aa the code
stores count 1 (str.count does not count overlapping occurrences), while
the number of occurrences counted with overlap is 2. -/
theorem search_count_overlap_counterexample :
    scrape_news_item (fun _ => 0)
        { titleText := some ("aaa"), dateText := none, descriptionText := some ("b"),
          picture := none } ("aa")
      = Except.ok (some
          ({ title := "aaa", date := none, description := some ("b"),
             picture_filename := none, search_phrase_count := 1, has_money := false }, []))
  ∧ overlapCount ((pyLower ("aaa")).data) ((pyLower ("aa")).data)
      + overlapCount ((pyLower ("b")).data) ((pyLower ("aa")).data) = 2 := ⟨rfl, rfl⟩

/-- Claim C4 as amended: for a nonempty search term, the stored count is
the sum of the case-insensitive numbers of non-overlapping occurrences
of the term in the title and in the description (0 when missing), and
the spec example still evaluates to 2. -/
theorem search_count_nonoverlapping (hashFn : String → Int) (item : NewsItem)
    (term : String) (r : NewsRecord) (eff : List Effect) (hterm : ¬ term = "")
    (h : scrape_news_item hashFn item term = Except.ok (some (r, eff))) :
    r.search_phrase_count
      = pyCountStr (pyLower r.title) (pyLower term)
        + (match r.description with
           | some d => pyCountStr (pyLower d) (pyLower term)
           | none => 0)
  ∧ pyCountStr (pyLower ("Olympics and olympics")) (pyLower ("Olympics")) = 2 := by
  refine ⟨?_, rfl⟩
  obtain ⟨t, dopt, hm, ht, h0, hd, hmf, hr, he⟩ := scrape_inv hashFn item term r eff h
  subst hr
  simp only [searchCount, if_neg h0]
  cases hdsc : item.descriptionText with
  | none => simp
  | some d =>
    by_cases hd0 : d = ""
    · subst hd0
      have hz : pyCountStr (pyLower ("")) (pyLower term) = 0 :=
        pyCountStr_empty_text (pyLower term) (pyLower_data_ne_nil term hterm)
      simp [hz]
    · simp [if_neg hd0]

/-! ## Witnesses -/

/-- Witness for C1 at a concrete date: a prior-month article is before
the cutoff for N = 1 and not before it for N = 2. -/
theorem cutoff_month_arithmetic_witness :
    dateLt ⟨2026, 9, 15⟩ (computeMinDate ⟨2026, 10, 12⟩ 1) = true
  ∧ dateLt ⟨2026, 9, 15⟩ (computeMinDate ⟨2026, 10, 12⟩ 2) = false := by
  have h := (cutoff_month_arithmetic ⟨2026, 10, 12⟩ 1 (by decide)).2.2.2
      ⟨2026, 9, 15⟩ (by decide) (by decide) (by decide) (by decide)
  exact ⟨h.1, h.2 2 (by decide)⟩

/-- Witness for C2: one article dated before the cutoff yields an empty
export, a break, and no pagination. -/
theorem cutoff_termination_policy_witness :
    scanItems (fun _ => 0) ("z") ⟨2026, 10, 1⟩
        [⟨some ("Old"), some ("01 Jan 2020"), some ("x"), none⟩] 0 []
      = Except.ok ([], 0, true, [Effect.scroll])
  ∧ crawlLoop (fun _ => 0) ("z") ⟨2026, 10, 1⟩
        [⟨some ("Old"), some ("01 Jan 2020"), some ("x"), none⟩] 0 [] []
      = Except.ok ([], [Effect.scroll]) := by
  have h := (cutoff_termination_policy (fun _ => 0) ("z") ⟨2026, 10, 1⟩
      ⟨some ("Old"), some ("01 Jan 2020"), some ("x"), none⟩
      ⟨"Old", some ⟨2020, 1, 1⟩, some ("x"), none, 0, false⟩ [] rfl).1
      ⟨2020, 1, 1⟩ rfl rfl [] 0 []
  exact ⟨h.1, h.2 []⟩

/-- Witness for C4 as amended, on the counterexample item and on the
spec example. -/
theorem search_count_nonoverlapping_witness :
    (⟨"aaa", none, some ("b"), none, 1, false⟩ : NewsRecord).search_phrase_count
      = pyCountStr (pyLower ("aaa")) (pyLower ("aa"))
        + pyCountStr (pyLower ("b")) (pyLower ("aa"))
  ∧ pyCountStr (pyLower ("Olympics and olympics")) (pyLower ("Olympics")) = 2 :=
  search_count_nonoverlapping (fun _ => 0)
    ⟨some ("aaa"), none, some ("b"), none⟩ ("aa")
    ⟨"aaa", none, some ("b"), none, 1, false⟩ [] (by decide) rfl

/-- Witness for C5 on a record whose title mentions money. -/
theorem has_money_iff_money_regex_witness :
    ((⟨"Win $1,200 now", some ⟨2026, 10, 1⟩, none, none, 1, true⟩ : NewsRecord).has_money = true
      ↔ (moneySearch ("Win $1,200 now") = true
          ∨ ∃ d, (none : Option String) = some d ∧ moneySearch d = true))
  ∧ moneySearch ("$1,200") = true ∧ moneySearch ("50 dollars") = true
  ∧ moneySearch ("no money here") = false :=
  has_money_iff_money_regex (fun _ => 0)
    ⟨some ("Win $1,200 now"), some ("01 Oct 2026"), none, none⟩ ("win")
    ⟨"Win $1,200 now", some ⟨2026, 10, 1⟩, none, none, 1, true⟩ [] rfl

/-- Witness for C6: a one-item page with no cutoff hit ends the loop
with that record when no load-more control exists. -/
theorem pagination_load_more_witness :
    (1 : Nat) = 0 + ([⟨some ("A"), none, some (""), none⟩] : List NewsItem).length
  ∧ crawlLoop (fun _ => 0) ("q") ⟨2026, 10, 1⟩
        [⟨some ("A"), none, some (""), none⟩] 0 [] []
      = Except.ok ([⟨"A", none, some (""), none, 0, false⟩], [Effect.scroll]) := by
  have h := pagination_load_more (fun _ => 0) ("q") ⟨2026, 10, 1⟩
      ⟨some ("A"), none, some (""), none⟩ [] 0 []
      [⟨"A", none, some (""), none, 0, false⟩] 1 [Effect.scroll] rfl
  exact ⟨h.1, h.2.1⟩

/-- Witness for C7: an item with no title produces nothing and the scan
proceeds to the next item. -/
theorem missing_title_skips_item_witness :
    scrape_news_item (fun _ => 0) ⟨none, none, none, none⟩ ("x") = Except.ok none
  ∧ scanItems (fun _ => 0) ("x") ⟨2026, 1, 1⟩
        [⟨none, none, none, none⟩, ⟨none, none, none, none⟩] 0 []
      = Except.map (fun q => (q.1, q.2.1, q.2.2.1, Effect.scroll :: q.2.2.2))
          (scanItems (fun _ => 0) ("x") ⟨2026, 1, 1⟩ [⟨none, none, none, none⟩] 1 []) := by
  have h := missing_title_skips_item (fun _ => 0) ("x") ⟨2026, 1, 1⟩
      ⟨none, none, none, none⟩ rfl
  exact ⟨h.1, h.2 [⟨none, none, none, none⟩] 0 []⟩

/-- Witness for C8 on a concrete snapshot. -/
theorem extraction_deterministic_witness :
    save_news_to_excel (fun _ => 0) ("q") 1 ⟨2026, 10, 12⟩ [⟨none, none, none, none⟩] []
      = save_news_to_excel (fun _ => 0) ("q") 1 ⟨2026, 10, 12⟩ [⟨none, none, none, none⟩] []
  ∧ Except.map (fun q => q.1.map (fun r => r.picture_filename))
        (save_news_to_excel (fun _ => 0) ("q") 1 ⟨2026, 10, 12⟩ [⟨none, none, none, none⟩] [])
      = Except.map (fun q => q.1.map (fun r => r.picture_filename))
        (save_news_to_excel (fun _ => 0) ("q") 1 ⟨2026, 10, 12⟩ [⟨none, none, none, none⟩] []) :=
  extraction_deterministic (fun _ => 0) ("q") 1 ⟨2026, 10, 12⟩
    [⟨none, none, none, none⟩] [⟨none, none, none, none⟩] [] [] rfl rfl

/-- Witness for C9: a mixed-case firefox name starts the gecko driver. -/
theorem set_webdriver_supported_browsers_witness :
    set_webdriver ("FireFox")
      = Except.ok ⟨"FireFox", set_firefox_options, 20⟩ :=
  (set_webdriver_supported_browsers ("FireFox")).2.2.1 rfl

/-- Witness for C10: img without src, no download, filename still set
from the hash of the title. -/
theorem picture_filename_without_src_witness :
    ([] : List Effect) = []
  ∧ (⟨"T", none, some ("d"), some ("7.png"), 1, false⟩ : NewsRecord).picture_filename
      = some (toString ((7 : Int)) ++ ".png") :=
  picture_filename_without_src (fun _ => 7) ⟨some ("T"), none, some ("d"), some none⟩ ("t")
    ⟨"T", none, some ("d"), some ("7.png"), 1, false⟩ [] rfl rfl

end AlJazeera
